import Mathlib

/-!
Shallow embedding of the Veo production-orchestration API
(`src/api/main.py`, `src/api/storage_service.py`, `src/api/firestore_service.py`,
`src/api/models.py`, with collaborator behaviour — Veo video operations, the
Transcoder, GCS signing — supplied as oracle parameters).  Definitions mirror
the Python source; theorems settle the frozen claims about it.
-/

namespace Veo

/-- Python `dict.get(k)` over an association list. -/
def dget {α : Type} (d : List (String × α)) (k : String) : Option α :=
  match d with
  | [] => none
  | kv :: rest => if kv.1 = k then some kv.2 else dget rest k

/-- Python `d[k] = v` over an association list: replace in place, else append. -/
def dset {α : Type} (d : List (String × α)) (k : String) (v : α) : List (String × α) :=
  if (dget d k).isSome then d.map (fun kv => if kv.1 = k then (k, v) else kv)
  else d ++ [(k, v)]

/-- Python truthiness of an optional string (`None` and `""` are falsy). -/
def optTruthy (o : Option String) : Bool := o.getD "" != ""

/-- Python `s.startswith(pre)` (structural over the character lists, so that
concrete instances evaluate in the kernel). -/
def startswith (s pre : String) : Bool := pre.data.isPrefixOf s.data

-- ===== storage_service.py =====

/-- `SIGN_DURATION = timedelta(hours=48)`, in seconds. -/
def SIGN_DURATION : Int := 48 * 60 * 60

/-- `REFRESH_THRESHOLD = timedelta(minutes=5)`, in seconds. -/
def REFRESH_THRESHOLD : Int := 5 * 60

/-- The `expires_at` slot of a cache entry as the Python code can observe it:
absent/falsy, present but rejected by `datetime.fromisoformat`
(`ValueError`/`TypeError`), or successfully parsed to an instant. -/
inductive ExpiresAtField where
  | missing : ExpiresAtField
  | malformed : ExpiresAtField
  | valid (t : Int) : ExpiresAtField
deriving DecidableEq, Repr

/-- One value of the per-entity `signed_urls` cache map. -/
structure CacheEntry where
  url : String
  expires_at : ExpiresAtField
deriving DecidableEq, Repr

/-- The per-entity `signed_urls` cache (durable reference to signed-URL entry). -/
abbrev SignedUrlCache := List (String × CacheEntry)

/-- `StorageService._generate_signed_url`: the external signing call is the
oracle `sign`; the entry records expiry `now + SIGN_DURATION`. -/
def generate_signed_url (sign : String → String) (now : Int) (gcs_uri : String) : CacheEntry :=
  { url := sign gcs_uri, expires_at := .valid (now + SIGN_DURATION) }

/-- `StorageService.resolve_cached_url`.  Returns `((url, changed), cache)`;
non-`gs://` (including empty) input passes through unchanged, a cached entry
far enough from expiry is reused, anything else falls through to a fresh
signed URL that overwrites the cache slot. -/
def resolve_cached_url (sign : String → String) (now : Int)
    (gcs_uri : String) (cache : SignedUrlCache) : (String × Bool) × SignedUrlCache :=
  if ¬ startswith gcs_uri "gs://" then ((gcs_uri, false), cache)
  else
    let entry := generate_signed_url sign now gcs_uri
    let fresh := ((entry.url, true), dset cache gcs_uri entry)
    match dget cache gcs_uri with
    | some cached =>
      match cached.expires_at with
      | .valid t => if t - now > REFRESH_THRESHOLD then ((cached.url, false), cache) else fresh
      | _ => fresh
    | none => fresh

-- ===== models.py =====

/-- `ProjectStatus` enum. -/
inductive ProjectStatus where
  | draft | analyzing | scripted | generating | stitching | completed | failed
deriving DecidableEq, Repr

/-- `UsageMetrics` model (cost as an exact rational). -/
structure UsageMetrics where
  input_tokens : Int := 0
  output_tokens : Int := 0
  model_name : String := ""
  cost_usd : Rat := 0
deriving DecidableEq, Repr

/-- `Scene` model (fields the orchestration core reads or writes). -/
structure Scene where
  id : String
  visual_description : String := ""
  narration : Option String := none
  narration_enabled : Bool := false
  music_description : Option String := none
  music_enabled : Bool := false
  timestamp_start : String := "0"
  timestamp_end : String := "8"
  thumbnail_url : Option String := none
  video_url : Option String := none
  generated_prompt : Option String := none
  image_prompt : Option String := none
  video_prompt : Option String := none
  operation_name : Option String := none
  status : String := "pending"
  error_message : Option String := none
  usage : UsageMetrics := {}
deriving DecidableEq, Repr

/-- `Project` model (fields the orchestration core reads or writes). -/
structure Project where
  id : String
  name : String := ""
  base_concept : String := ""
  orientation : String := "16:9"
  status : ProjectStatus := .draft
  reference_image_url : Option String := none
  final_video_url : Option String := none
  stitch_job_name : Option String := none
  analysis_prompt : Option String := none
  error_message : Option String := none
  signed_urls : SignedUrlCache := []
  scenes : List Scene := []
  archived : Bool := false
  total_usage : UsageMetrics := {}
deriving DecidableEq, Repr

/-- `CompressedVariant` model. -/
structure CompressedVariant where
  resolution : String
  gcs_uri : String := ""
  job_name : String := ""
  status : String := "pending"
  child_upload_id : Option String := none
deriving DecidableEq, Repr

/-- `UploadRecord` model. -/
structure UploadRecord where
  id : String
  filename : String := ""
  mime_type : String := ""
  file_type : String := "other"
  gcs_uri : String := ""
  file_size_bytes : Int := 0
  compressed_variants : List CompressedVariant := []
  parent_upload_id : Option String := none
  resolution_label : Option String := none
  signed_urls : SignedUrlCache := []
  archived : Bool := false
deriving DecidableEq, Repr

-- ===== firestore_service.py =====

/-- `FirestoreService.update_scene`: merge an update into every scene of the
production whose id matches `scene_id` (the Python loop updates each match). -/
def updateSceneIn (p : Project) (scene_id : String) (f : Scene → Scene) : Project :=
  { p with scenes := p.scenes.map (fun s => if s.id == scene_id then f s else s) }

/-- Read back one scene by id (first match), as `next((s for s in scenes ...))`. -/
def getScene (p : Project) (scene_id : String) : Option Scene :=
  p.scenes.find? (fun s => s.id == scene_id)

-- ===== main.py: helpers and endpoints =====

/-- `ProjectStatus.value` strings. -/
def statusValue : ProjectStatus → String
  | .draft => "draft"
  | .analyzing => "analyzing"
  | .scripted => "scripted"
  | .generating => "generating"
  | .stitching => "stitching"
  | .completed => "completed"
  | .failed => "failed"

/-- `_accumulate_cost`: read the current total, add the delta, persist.  The
persisted update replaces the whole `total_usage` map with one holding only
`cost_usd`, so the token fields read back as their defaults. -/
def accumulate_cost (p : Project) (cost_usd : Rat) : Project :=
  { p with total_usage := { cost_usd := p.total_usage.cost_usd + cost_usd } }

/-- `POST /api/v1/productions`: the client-supplied document is persisted
verbatim (no validation of status against output references). -/
def create_production (project : Project) : Project := project

/-- Untyped values of a PATCH payload, as stored by a raw dict update. -/
inductive JVal where
  | s (v : String)
  | b (v : Bool)
  | n (v : Int)
  | null
deriving DecidableEq, Repr

/-- A JSON-object payload / stored document, dict-shaped. -/
abbrev JDict := List (String × JVal)

/-- The `ALLOWED` whitelist of `update_scene`. -/
def ALLOWED : List String :=
  ["visual_description", "narration", "narration_enabled", "music_description", "music_enabled"]

/-- `PATCH /productions/id/scenes/scene_id` effect on the stored scene
document: keep only whitelisted keys, and write (a dict update of the scene
document) only when the filtered payload is non-empty.  Returns the stored
document and whether a Firestore write happened. -/
def update_scene_endpoint (sceneDoc : JDict) (updates : JDict) : JDict × Bool :=
  let filtered := updates.filter (fun kv => ALLOWED.contains kv.1)
  if filtered.isEmpty then (sceneDoc, false)
  else (filtered.foldl (fun d kv => dset d kv.1 kv.2) sceneDoc, true)

/-- Typed shadow of the PATCH whitelist: an edit may replace only the five
editable scene fields. -/
structure SceneEdit where
  visual_description : Option String := none
  narration : Option (Option String) := none
  narration_enabled : Option Bool := none
  music_description : Option (Option String) := none
  music_enabled : Option Bool := none
deriving DecidableEq, Repr

/-- Apply a whitelisted edit to a scene (the typed counterpart of the filtered
dict update in `update_scene`). -/
def apply_scene_edit (e : SceneEdit) (s : Scene) : Scene :=
  { s with
    visual_description := e.visual_description.getD s.visual_description,
    narration := e.narration.getD s.narration,
    narration_enabled := e.narration_enabled.getD s.narration_enabled,
    music_description := e.music_description.getD s.music_description,
    music_enabled := e.music_enabled.getD s.music_enabled }

/-- The scene update of the `generate_scene_frame` success path: thumbnail
reference and, when truthy, the prompt fields. -/
def frame_scene_update (gcs_uri : String) (generated_prompt : Option String)
    (s : Scene) : Scene :=
  if optTruthy generated_prompt then
    { s with thumbnail_url := some gcs_uri,
             generated_prompt := generated_prompt, image_prompt := generated_prompt }
  else { s with thumbnail_url := some gcs_uri }

/-- `generate_scene_frame` success path, persisted effect: thumbnail reference
and (when truthy) prompt fields on the scene, then cost accumulation. -/
def generate_scene_frame_ok (scene_id gcs_uri : String) (generated_prompt : Option String)
    (cost : Rat) (p : Project) : Project :=
  accumulate_cost
    (updateSceneIn p scene_id (frame_scene_update gcs_uri generated_prompt)) cost

/-- `generate_scene_frame` failure path: scene marked failed, production
marked failed with a derived error message. -/
def generate_scene_frame_err (scene_id msg : String) (p : Project) : Project :=
  let p1 := updateSceneIn p scene_id (fun s =>
    { s with status := "failed", error_message := some msg })
  { p1 with status := .failed,
            error_message := some ("Image generation failed for scene " ++ scene_id ++ ": " ++ msg) }

/-- Dict shape of what `video_service.generate_scene_video` resolves to; the
endpoints duck-type on key presence and truthiness of these keys. -/
structure VideoSvcDict where
  operation_name : Option String := none
  generated_prompt : Option String := none
  video_uri : Option String := none
deriving DecidableEq, Repr

/-- Subset of the `prompt_data` request payload that affects persisted state. -/
structure PromptData where
  visual_description : Option String := none
deriving DecidableEq, Repr

/-- Responses of the per-scene video endpoint. -/
inductive VideoResp where
  | processing (operation_name : String)
  | completed (video_uri signed_url : String)
  | failed (error_message : String)
  | httpError (code : Nat)
deriving DecidableEq, Repr

/-- Outcome of the per-scene video endpoint: persisted production, number of
external Veo jobs started during the call, and the HTTP response. -/
structure VideoOut where
  store : Project
  dispatched : Nat
  response : VideoResp
deriving DecidableEq, Repr

/-- The writes the video endpoint performs before the dispatch: the optional
`visual_description` update from `prompt_data`, then the `generating` status. -/
def video_pre (prompt_data : Option PromptData) (scene : Scene) (p : Project)
    (scene_id : String) : Project :=
  updateSceneIn
    (match prompt_data with
     | some pd =>
       match pd.visual_description with
       | some d =>
         if d != "" && d != scene.visual_description then
           updateSceneIn p scene_id (fun s => { s with visual_description := d })
         else p
       | none => p
     | none => p)
    scene_id (fun s => { s with status := "generating" })

/-- The Veo cost of the call: 0.40 USD per second, the duration clamped to the
supported range and defaulting to 8 on a timestamp parse failure. -/
def veo_cost_of (raw_seconds : Option Int) : Rat :=
  (match raw_seconds with
   | some r => max 4 (min 8 r)
   | none => 8 : Int) * (2 / 5 : Rat)

/-- Scene update of the blocking-completed branch of the video endpoint. -/
def video_completed_update (result : VideoSvcDict) (s : Scene) : Scene :=
  if optTruthy result.generated_prompt then
    { s with status := "completed", video_url := some (result.video_uri.getD ""),
             generated_prompt := result.generated_prompt,
             video_prompt := result.generated_prompt }
  else
    { s with status := "completed", video_url := some (result.video_uri.getD "") }

/-- Cost accumulation and the result-shape branches of the video endpoint,
run after a non-raising service call. -/
def video_post (sign : String → String) (result : VideoSvcDict) (raw_seconds : Option Int)
    (p2 : Project) (scene_id : String) : VideoOut :=
  match result.operation_name with
  | some opName =>
    { store :=
        if optTruthy result.generated_prompt then
          updateSceneIn (accumulate_cost p2 (veo_cost_of raw_seconds)) scene_id (fun s =>
            { s with generated_prompt := result.generated_prompt,
                     video_prompt := result.generated_prompt })
        else accumulate_cost p2 (veo_cost_of raw_seconds),
      dispatched := 1, response := .processing opName }
  | none =>
    if optTruthy result.video_uri then
      { store := updateSceneIn (accumulate_cost p2 (veo_cost_of raw_seconds)) scene_id
          (video_completed_update result),
        dispatched := 1,
        response := .completed (result.video_uri.getD "") (sign (result.video_uri.getD "")) }
    else
      { store :=
          { updateSceneIn (accumulate_cost p2 (veo_cost_of raw_seconds)) scene_id (fun s =>
              { s with status := "failed",
                       error_message := some ("Video generation failed for scene " ++ scene_id) })
            with
            status := .failed,
            error_message := some ("Video generation failed for scene " ++ scene_id) },
        dispatched := 1,
        response := .failed ("Video generation failed for scene " ++ scene_id) }

/-- `POST /productions/id/scenes/scene_id/video`.  `svc` is the outcome of the
`video_svc.generate_scene_video(..., blocking=False)` call (`.error` models a
raised exception, which escapes the endpoint as a 500); `raw_seconds` is the
integer `end - start` parsed from the scene timestamps (`none` models a parse
failure, defaulting the duration to 8). -/
def generate_scene_video_endpoint (sign : String → String)
    (svc : Except String VideoSvcDict) (raw_seconds : Option Int)
    (prompt_data : Option PromptData) (p : Project) (scene_id : String) : VideoOut :=
  match getScene p scene_id with
  | none => { store := p, dispatched := 0, response := .httpError 404 }
  | some scene =>
    match svc with
    | .error e =>
      { store := video_pre prompt_data scene p scene_id, dispatched := 0, response := .failed e }
    | .ok result =>
      video_post sign result raw_seconds (video_pre prompt_data scene p scene_id) scene_id

/-- `POST /productions/id/render`: set status to generating and schedule the
kickoff background task. -/
def start_render (p : Project) : Project := { p with status := .generating }

/-- Per-scene write `process_render_kickoff` makes after a successful
dispatch: the operation handle and the prompt fields, each when truthy. -/
def kickoff_scene_updates (result : VideoSvcDict) (s : Scene) : Scene :=
  let s1 :=
    if optTruthy result.operation_name then { s with operation_name := result.operation_name }
    else s
  if optTruthy result.generated_prompt then
    { s1 with generated_prompt := result.generated_prompt,
              video_prompt := result.generated_prompt }
  else s1

/-- Outcome of render kickoff: persisted production and the ids of scenes for
which an external Veo job was started. -/
structure KickoffOut where
  store : Project
  dispatched : List String
deriving DecidableEq, Repr

/-- The `for scene in production.scenes` body of `process_render_kickoff`,
iterating over the snapshot scene list; a raised dispatch exception aborts the
rest of the loop and is returned to the caller. -/
def kickoff_loop (svc : Scene → Except String VideoSvcDict) :
    List Scene → Project → KickoffOut × Option String
  | [], p => ({ store := p, dispatched := [] }, none)
  | scene :: rest, p =>
    if startswith (scene.video_url.getD "") "gs://" then
      let p1 :=
        if scene.status != "completed" then
          updateSceneIn p scene.id (fun s => { s with status := "completed" })
        else p
      kickoff_loop svc rest p1
    else
      let p1 := updateSceneIn p scene.id (fun s => { s with status := "generating" })
      match svc scene with
      | .error e => ({ store := p1, dispatched := [] }, some e)
      | .ok result =>
        let p2 := updateSceneIn p1 scene.id (kickoff_scene_updates result)
        let out := kickoff_loop svc rest p2
        ({ store := out.1.store, dispatched := scene.id :: out.1.dispatched }, out.2)

/-- `process_render_kickoff` background task (the production was fetched; the
exception handler marks the production failed). -/
def process_render_kickoff (svc : Scene → Except String VideoSvcDict)
    (p : Project) : KickoffOut :=
  match kickoff_loop svc p.scenes p with
  | (out, none) => out
  | (out, some e) =>
    { out with store := { out.store with status := .failed, error_message := some e } }

/-- Responses of the stitch endpoint. -/
inductive StitchResp where
  | stitching (job_name : String)
  | httpError (code : Nat) (detail : String)
deriving DecidableEq, Repr

/-- Outcome of the stitch endpoint: persisted production, number of external
transcoding jobs started, response. -/
structure StitchOut where
  store : Project
  dispatched : Nat
  response : StitchResp
deriving DecidableEq, Repr

/-- The scene-URI gathering loop of `stitch_production`: fails on the first
scene without a confirmed `gs://` video reference, naming it. -/
def collect_scene_uris : List Scene → Except String (List String)
  | [] => .ok []
  | s :: rest =>
    if startswith (s.video_url.getD "") "gs://" then
      (collect_scene_uris rest).map (fun us => (s.video_url.getD "") :: us)
    else .error ("Scene " ++ s.id ++ " does not have a video yet")

/-- `POST /productions/id/stitch`.  `transcoder` is the outcome of the
`stitch_from_uris` collaborator call (job name, or raised error); the final
output location is deterministic in the production id. -/
def stitch_production (bucket : String) (transcoder : Except String String)
    (p : Project) : StitchOut :=
  match collect_scene_uris p.scenes with
  | .error d => { store := p, dispatched := 0, response := .httpError 400 d }
  | .ok _ =>
    let p1 := { p with status := .stitching }
    match transcoder with
    | .ok job_name =>
      let final_uri := "gs://" ++ bucket ++ "/productions/" ++ p.id ++ "/stitched/final.mp4"
      let p2 := { p1 with stitch_job_name := some job_name, final_video_url := some final_uri }
      { store := p2, dispatched := 1, response := .stitching job_name }
    | .error e =>
      let p2 := { p1 with status := .failed, error_message := some e }
      { store := p2, dispatched := 0, response := .httpError 500 e }

/-- Responses of the stitch-status endpoint. -/
inductive StitchStatusResp where
  | plain (status : String)
  | completed (final_video_url : Option String)
  | failed (error : String)
  | stitching (job_state : String)
deriving DecidableEq, Repr

/-- `GET /productions/id/stitch-status`: resolve the tracked transcoding job
(`jobStatus` is the collaborator poll, `sign` is `get_signed_url`). -/
def get_stitch_status (jobStatus sign : String → String)
    (p : Project) : Project × StitchStatusResp :=
  if ¬ optTruthy p.stitch_job_name then (p, .plain (statusValue p.status))
  else
    if jobStatus (p.stitch_job_name.getD "") = "SUCCEEDED" then
      ({ p with status := .completed },
        .completed (if optTruthy p.final_video_url then some (sign (p.final_video_url.getD "")) else none))
    else if jobStatus (p.stitch_job_name.getD "") = "FAILED" ∨
        jobStatus (p.stitch_job_name.getD "") = "UNKNOWN" then
      ({ p with status := .failed,
                error_message := some ("Transcoder job " ++ jobStatus (p.stitch_job_name.getD "")) },
        .failed ("Transcoder job " ++ jobStatus (p.stitch_job_name.getD "")))
    else (p, .stitching (jobStatus (p.stitch_job_name.getD "")))

/-- Responses of the compress endpoint. -/
inductive CompressResp where
  | processing (job_name resolution : String)
  | httpError (code : Nat) (detail : String)
deriving DecidableEq, Repr

/-- Outcome of the compress endpoint: persisted record, number of external
transcoding jobs started, response. -/
structure CompressOut where
  record : UploadRecord
  dispatched : Nat
  response : CompressResp
deriving DecidableEq, Repr

/-- `POST /uploads/record_id/compress`.  `transcoder` is the outcome of the
`compress_video` collaborator call. -/
def compress_upload (bucket : String) (transcoder : Except String String)
    (record : UploadRecord) (resolution : String) : CompressOut :=
  if record.file_type != "video" then
    { record := record, dispatched := 0,
      response := .httpError 400 "Only video files can be compressed" }
  else if ¬ (resolution = "480p" ∨ resolution = "720p") then
    { record := record, dispatched := 0,
      response := .httpError 400 "Resolution must be 480p or 720p" }
  else
    match record.compressed_variants.find? (fun v =>
        v.resolution == resolution && (v.status == "processing" || v.status == "succeeded")) with
    | some v =>
      { record := record, dispatched := 0,
        response := .httpError 400 (resolution ++ " variant already " ++ v.status) }
    | none =>
      match transcoder with
      | .error e => { record := record, dispatched := 0, response := .httpError 500 e }
      | .ok job_name =>
        let output_uri :=
          "gs://" ++ bucket ++ "/uploads/compressed/" ++ record.id ++ "/" ++ resolution ++ "/compressed.mp4"
        let new_variant : CompressedVariant :=
          { resolution := resolution, gcs_uri := output_uri,
            job_name := job_name, status := "processing" }
        let updated :=
          (record.compressed_variants.filter (fun v => v.resolution != resolution)) ++ [new_variant]
        { record := { record with compressed_variants := updated }, dispatched := 1,
          response := .processing job_name resolution }

/-- `os.path.splitext` for plain filenames: split at the last dot, unless
every character before that dot is itself a dot. -/
def splitext (s : String) : String × String :=
  let cs := s.data
  match ((List.range cs.length).filter (fun i => cs.getD i ' ' == '.')).getLast? with
  | none => (s, "")
  | some i =>
    if (cs.take i).all (fun c => c == '.') then (s, "")
    else (String.mk (cs.take i), String.mk (cs.drop i))

/-- The child `UploadRecord` created when a compressed variant first succeeds. -/
def mk_child_record (record : UploadRecord) (v : CompressedVariant)
    (child_id : String) (child_size : Int) : UploadRecord :=
  let be := splitext record.filename
  { id := child_id,
    filename := be.1 ++ "-" ++ v.resolution ++ be.2,
    mime_type := record.mime_type,
    file_type := "video",
    gcs_uri := v.gcs_uri,
    file_size_bytes := child_size,
    parent_upload_id := some record.id,
    resolution_label := some v.resolution }

/-- An upload record plus the child records created for its variants. -/
structure UploadStore where
  record : UploadRecord
  children : List UploadRecord
deriving DecidableEq, Repr

/-- One variant iteration of the `get_compress_status` loop: resolve a
processing variant with a truthy job handle; on first success create the
child record (`freshId` models `generate_id`, keyed here by the variant's
output location; `size` models `get_file_size`). -/
def compress_status_step (jobStatus : String → String) (size : String → Int)
    (freshId : String → String) (record : UploadRecord)
    (v : CompressedVariant) : CompressedVariant × Option UploadRecord × Bool :=
  if v.status == "processing" && v.job_name != "" then
    if jobStatus v.job_name = "SUCCEEDED" then
      if ¬ optTruthy v.child_upload_id then
        ({ v with status := "succeeded", child_upload_id := some (freshId v.gcs_uri) },
          some (mk_child_record record { v with status := "succeeded" }
            (freshId v.gcs_uri) (size v.gcs_uri)), true)
      else ({ v with status := "succeeded" }, none, true)
    else if jobStatus v.job_name = "FAILED" ∨ jobStatus v.job_name = "UNKNOWN" then
      ({ v with status := "failed" }, none, true)
    else (v, none, false)
  else (v, none, false)

/-- `GET /uploads/record_id/compress-status`: run the variant loop over the
record snapshot, create child records, and write the variant list back only
when something changed.  Returns the store and the `updated` flag. -/
def get_compress_status (jobStatus : String → String) (size : String → Int)
    (freshId : String → String) (st : UploadStore) : UploadStore × Bool :=
  let steps := st.record.compressed_variants.map
    (compress_status_step jobStatus size freshId st.record)
  let variants := steps.map (fun x => x.1)
  let newChildren := steps.filterMap (fun x => x.2.1)
  let updated := steps.any (fun x => x.2.2)
  let record :=
    if updated then { st.record with compressed_variants := variants } else st.record
  ({ record := record, children := st.children ++ newChildren }, updated)

/-- Result of `video_svc.get_video_generation_status` as the diagnostics
endpoint consumes it. -/
inductive OpStatusResult where
  | completed (video_uri : Option String)
  | processing
  | failedS (error : Option String)
  | errorS (message : Option String)
deriving DecidableEq, Repr

/-- The production/scene writes of the failure branch of the diagnostics
operation-status endpoint. -/
def op_failure_update (scene_id : Option String) (msg : String) (p : Project) : Project :=
  { (if optTruthy scene_id then
      updateSceneIn p (scene_id.getD "") (fun s =>
        { s with status := "failed", error_message := some msg })
    else p) with
    status := .failed,
    error_message := some ("Video generation failed for scene "
      ++ (if optTruthy scene_id then scene_id.getD "" else "unknown") ++ ": " ++ msg) }

/-- `GET /diagnostics/operations/name`, persisted effect when a production
context is provided (`st` is the poll result). -/
def check_operation_status (st : OpStatusResult) (scene_id : Option String)
    (p : Project) : Project :=
  match st with
  | .completed uri =>
    if optTruthy uri then
      match scene_id with
      | some sid =>
        updateSceneIn p sid (fun s =>
          { s with status := "completed", video_url := some (uri.getD "") })
      | none => p
    else p
  | .processing => p
  | .failedS e =>
    op_failure_update scene_id
      (if optTruthy e then e.getD "" else "Video generation failed") p
  | .errorS m =>
    op_failure_update scene_id
      (if optTruthy m then m.getD "" else "Video generation failed") p

/-- `POST /productions/id/archive`. -/
def archive_production (p : Project) : Project := { p with archived := true }

/-- `POST /productions/id/unarchive`. -/
def unarchive_production (p : Project) : Project := { p with archived := false }

/-- The cache write-back `_sign_production_urls` performs when any signed URL
was refreshed. -/
def write_signed_urls (cache : SignedUrlCache) (p : Project) : Project :=
  { p with signed_urls := cache }

/-- Scene data extracted from the model response in `ai_service.analyze_brief`. -/
structure AiSceneData where
  id : String
  visual_description : String := ""
  timestamp_start : String := "0"
  timestamp_end : String := "8"
  narration : Option String := none
  music_description : Option String := none
deriving DecidableEq, Repr

/-- Scene construction in `analyze_brief`: generated scenes carry the model
defaults for everything else, in particular status `pending` and no video. -/
def mkAnalyzedScene (d : AiSceneData) : Scene :=
  { id := d.id,
    visual_description := d.visual_description,
    timestamp_start := d.timestamp_start,
    timestamp_end := d.timestamp_end,
    narration := d.narration,
    narration_enabled := optTruthy d.narration,
    music_description := d.music_description,
    music_enabled := optTruthy d.music_description }

/-- First write of `analyze_production`: status `analyzing`. -/
def analyze_production_start (p : Project) : Project := { p with status := .analyzing }

/-- Final write of `POST /productions/id/analyze`: scenes replaced by the
analysis result, status `scripted`, and `total_usage` **replaced** by this
call's usage (not added to the running total). -/
def analyze_production (ds : List AiSceneData) (usage : UsageMetrics)
    (analysis_prompt : Option String) (p : Project) : Project :=
  { p with scenes := ds.map mkAnalyzedScene,
           status := .scripted,
           total_usage := usage,
           analysis_prompt :=
             if optTruthy analysis_prompt then analysis_prompt else p.analysis_prompt }

/-- Concrete PATCH payload trying to overwrite non-whitelisted fields. -/
def c9_doc : JDict := [("status", JVal.s "pending"), ("narration", JVal.null)]

/-- Concrete stored scene document for the C9 witness. -/
def c9_ups : JDict := [("status", JVal.s "completed"), ("video_url", JVal.s "gs://b/v")]

/-- A production whose second scene still lacks a durable video (its URL is an
expired signed URL, not a `gs://` reference). -/
def c3_prod : Project :=
  { id := "p3", status := .generating,
    scenes := [{ id := "a", video_url := some "gs://b/a.mp4", status := "completed" },
               { id := "b", video_url := some "https://expired-signed-url", status := "completed" }] }

/-- Production with an accumulated cost of 10 USD, used by the C7 artifacts. -/
def c7_prod : Project :=
  { id := "p7", status := .scripted, total_usage := { cost_usd := 10 } }

/-- Scene and production for the C1 failing input. -/
def c1_prod : Project :=
  { id := "p1", status := .generating,
    scenes := [{ id := "s1", visual_description := "rolling hills" }] }

/-- The per-scene video endpoint run at the C1 failing input: the non-blocking
dispatch succeeds and the collaborator returns operation `op-1`. -/
def c1_out : VideoOut :=
  generate_scene_video_endpoint (fun u => u)
    (.ok { operation_name := some "op-1", generated_prompt := some "vp" })
    (some 8) none c1_prod "s1"

/-- Scene already carrying a processing video-generation handle. -/
def c2_prod : Project :=
  { id := "p2", status := .generating,
    scenes := [{ id := "s1", status := "generating", operation_name := some "op-old" }] }

/-- Upload record whose 720p variant is still processing. -/
def c2_record : UploadRecord :=
  { id := "up1", filename := "clip.mp4", mime_type := "video/mp4", file_type := "video",
    gcs_uri := "gs://b/clip.mp4",
    compressed_variants := [{ resolution := "720p", gcs_uri := "gs://b/720.mp4",
                              job_name := "tj-1", status := "processing" }] }

/-- The video endpoint re-invoked against the scene with a live handle. -/
def c2_out : VideoOut :=
  generate_scene_video_endpoint (fun u => u)
    (.ok { operation_name := some "op-new", generated_prompt := some "vp" })
    (some 8) none c2_prod "s1"

/-- Per-scene effect of a render kickoff in which every dispatch succeeds (the
characterization proved for C8): a scene with a confirmed `gs://` video only
has its status normalized to `completed`; any other scene is set `generating`
and receives the dispatch updates. -/
def kickoffTransform (svcOk : Scene → VideoSvcDict) (s : Scene) : Scene :=
  if startswith (s.video_url.getD "") "gs://" then { s with status := "completed" }
  else kickoff_scene_updates (svcOk s) { s with status := "generating" }

/-- Production whose single scene holds a confirmed video but is marked
`failed`, for the C8 artifacts. -/
def c8_prod : Project :=
  { id := "p8", status := .generating,
    scenes := [{ id := "s1", status := "failed", video_url := some "gs://b/v1.mp4",
                 error_message := some "veo quota" }] }

/-- Kickoff run against `c8_prod` with a successful dispatch oracle. -/
def c8_out : KickoffOut :=
  process_render_kickoff (fun s => .ok { operation_name := some ("op-" ++ s.id) }) c8_prod

/-- Per-scene part of the completed-implies-output invariant. -/
abbrev SceneInvP (p : Project) : Prop :=
  ∀ s ∈ p.scenes, s.status = "completed" → optTruthy s.video_url = true

/-- The inductive invariant for C4: a completed production has a (truthy)
final video URL, a tracked stitch job implies a final video URL was recorded
with it, every completed scene has a truthy video reference, and scene ids
are distinct (the model's `generate_id` freshness). -/
abbrev Inv (p : Project) : Prop :=
  (p.status = .completed → optTruthy p.final_video_url = true) ∧
  (optTruthy p.stitch_job_name = true → optTruthy p.final_video_url = true) ∧
  SceneInvP p ∧
  (p.scenes.map (fun s => s.id)).Nodup

/-- One persisted transition of the production-touching exposed operations
(every collaborator outcome is universally quantified).  `create_production`
is deliberately not a transition: it installs an arbitrary client document and
is the counterexample to C4 as stated. -/
inductive Step : Project → Project → Prop where
  | analyze_start (p : Project) : Step p (analyze_production_start p)
  | analyze_finish (p : Project) (ds : List AiSceneData) (usage : UsageMetrics)
      (ap : Option String) (hids : (ds.map (fun d => d.id)).Nodup) :
      Step p (analyze_production ds usage ap p)
  | patch (p : Project) (sid : String) (e : SceneEdit) :
      Step p (updateSceneIn p sid (apply_scene_edit e))
  | frame_ok (p : Project) (sid uri : String) (gp : Option String) (cost : Rat) :
      Step p (generate_scene_frame_ok sid uri gp cost p)
  | frame_err (p : Project) (sid msg : String) :
      Step p (generate_scene_frame_err sid msg p)
  | video (p : Project) (sid : String) (sign : String → String)
      (svc : Except String VideoSvcDict) (raw : Option Int) (pd : Option PromptData) :
      Step p (generate_scene_video_endpoint sign svc raw pd p sid).store
  | render (p : Project) : Step p (start_render p)
  | kickoff (p : Project) (svc : Scene → Except String VideoSvcDict) :
      Step p (process_render_kickoff svc p).store
  | stitch (p : Project) (bucket : String) (transcoder : Except String String) :
      Step p (stitch_production bucket transcoder p).store
  | stitch_status (p : Project) (jobStatus sign : String → String) :
      Step p (get_stitch_status jobStatus sign p).1
  | op_status (p : Project) (st : OpStatusResult) (sid : Option String) :
      Step p (check_operation_status st sid p)
  | archive (p : Project) : Step p (archive_production p)
  | unarchive (p : Project) : Step p (unarchive_production p)
  | sign_urls (p : Project) (cache : SignedUrlCache) :
      Step p (write_signed_urls cache p)

/-- States reachable from `p` through the exposed orchestration operations. -/
def Reach : Project → Project → Prop := Relation.ReflTransGen Step

/-- A client-supplied document marked completed with no final video. -/
def c4_bad : Project := { id := "pX", status := .completed }

/-- A default-created production (the model defaults of `Project`). -/
def c4_init : Project := { id := "p4" }

-- ===== association-list lemmas =====

theorem dget_map_set_self {α : Type} (d : List (String × α)) (k : String) (v : α)
    (h : (dget d k).isSome) :
    dget (d.map (fun kv => if kv.1 = k then (k, v) else kv)) k = some v := by
  induction d with
  | nil => simp [dget] at h
  | cons hd tl ih =>
    by_cases hh : hd.1 = k
    · simp [dget, hh]
    · simp only [dget, hh, if_false] at h
      simp [dget, hh, ih h]

theorem dget_append_single {α : Type} (d : List (String × α)) (k : String) (v : α) :
    dget (d ++ [(k, v)]) k = ((dget d k).getD v : α) := by
  induction d with
  | nil => simp [dget]
  | cons hd tl ih =>
    by_cases hh : hd.1 = k <;> simp [dget, hh, ih]

theorem dget_dset_self {α : Type} (d : List (String × α)) (k : String) (v : α) :
    dget (dset d k v) k = some v := by
  unfold dset
  by_cases h : (dget d k).isSome
  · simp only [h, if_true]
    exact dget_map_set_self d k v h
  · simp only [h, Bool.false_eq_true, if_false]
    rw [dget_append_single]
    rw [Option.not_isSome_iff_eq_none] at h
    rw [h]
    rfl

theorem dget_map_set_ne {α : Type} (d : List (String × α)) (k k2 : String) (v : α)
    (h : k2 ≠ k) :
    dget (d.map (fun kv => if kv.1 = k then (k, v) else kv)) k2 = dget d k2 := by
  induction d with
  | nil => rfl
  | cons hd tl ih =>
    by_cases hh : hd.1 = k
    · have h1 : ¬ (k = k2) := fun he => h he.symm
      have h2 : ¬ (hd.1 = k2) := fun he => h (hh ▸ he).symm
      simp [dget, hh, h1, h2, ih]
    · by_cases h2 : hd.1 = k2 <;> simp [dget, hh, h2, h, ih]

theorem dget_append_single_ne {α : Type} (d : List (String × α)) (k k2 : String) (v : α)
    (h : k2 ≠ k) : dget (d ++ [(k, v)]) k2 = dget d k2 := by
  induction d with
  | nil =>
    have h1 : ¬ (k = k2) := fun he => h he.symm
    simp [dget, h1]
  | cons hd tl ih =>
    by_cases h2 : hd.1 = k2 <;> simp [dget, h2, ih]

theorem dget_dset_ne {α : Type} (d : List (String × α)) (k k2 : String) (v : α)
    (h : k2 ≠ k) : dget (dset d k v) k2 = dget d k2 := by
  unfold dset
  by_cases ha : (dget d k).isSome
  · simp only [ha, if_true]
    exact dget_map_set_ne d k k2 v h
  · simp only [ha, Bool.false_eq_true, if_false]
    exact dget_append_single_ne d k k2 v h

-- ===== branch lemmas for resolve_cached_url =====

theorem resolve_cached_url_pass (sign : String → String) (now : Int) (uri : String)
    (cache : SignedUrlCache) (h : startswith uri "gs://" = false) :
    resolve_cached_url sign now uri cache = ((uri, false), cache) := by
  simp [resolve_cached_url, h]

theorem resolve_cached_url_hit (sign : String → String) (now : Int) (uri : String)
    (cache : SignedUrlCache) (e : CacheEntry) (t : Int)
    (hg : startswith uri "gs://" = true)
    (he : dget cache uri = some e) (hv : e.expires_at = .valid t)
    (ht : t - now > REFRESH_THRESHOLD) :
    resolve_cached_url sign now uri cache = ((e.url, false), cache) := by
  simp [resolve_cached_url, hg, he, hv, ht]

theorem resolve_cached_url_fresh (sign : String → String) (now : Int) (uri : String)
    (cache : SignedUrlCache)
    (hg : startswith uri "gs://" = true)
    (hst : ¬ ∃ e t, dget cache uri = some e ∧ e.expires_at = .valid t ∧
      t - now > REFRESH_THRESHOLD) :
    resolve_cached_url sign now uri cache =
      ((sign uri, true), dset cache uri (generate_signed_url sign now uri)) := by
  rcases hc : dget cache uri with _ | e
  · simp [resolve_cached_url, hg, hc, generate_signed_url]
  · rcases hv : e.expires_at with _ | _ | t
    · simp [resolve_cached_url, hg, hc, hv, generate_signed_url]
    · simp [resolve_cached_url, hg, hc, hv, generate_signed_url]
    · have hnt : ¬ t - now > REFRESH_THRESHOLD := fun hth => hst ⟨e, t, hc, hv, hth⟩
      simp [resolve_cached_url, hg, hc, hv, hnt, generate_signed_url]

theorem resolve_cached_url_changed_shape (sign : String → String) (now : Int)
    (uri : String) (cache : SignedUrlCache)
    (hch : (resolve_cached_url sign now uri cache).1.2 = true) :
    resolve_cached_url sign now uri cache =
      ((sign uri, true), dset cache uri (generate_signed_url sign now uri)) := by
  by_cases hg : startswith uri "gs://"
  · by_cases hhit : ∃ e t, dget cache uri = some e ∧ e.expires_at = .valid t ∧
      t - now > REFRESH_THRESHOLD
    · rcases hhit with ⟨e, t, he, hv, ht⟩
      rw [resolve_cached_url_hit sign now uri cache e t hg he hv ht] at hch
      simp at hch
    · exact resolve_cached_url_fresh sign now uri cache hg hhit
  · rw [resolve_cached_url_pass sign now uri cache (eq_false_of_ne_true hg)] at hch
    simp at hch

-- ===== claim theorems =====

/-- **C6**: `resolve_cached_url` returns a non-`gs://` input unchanged with
`changed = false`; if the cache holds an entry for the reference whose expiry
minus the fixed refresh threshold is still in the future it returns the
cached URL with `changed = false` and does not modify the cache; otherwise it
generates a fresh signed URL, overwrites the cache entry and returns
`changed = true`; consequently resolving the same durable reference twice
within the threshold returns an identical URL with `changed = false` the
second time and leaves the cache unchanged. -/
theorem resolve_cached_url_contract :
    (∀ (sign : String → String) (now : Int) (uri : String) (cache : SignedUrlCache),
      startswith uri "gs://" = false →
      resolve_cached_url sign now uri cache = ((uri, false), cache)) ∧
    (∀ (sign : String → String) (now : Int) (uri : String) (cache : SignedUrlCache)
        (e : CacheEntry) (t : Int),
      startswith uri "gs://" = true →
      dget cache uri = some e → e.expires_at = .valid t → t - now > REFRESH_THRESHOLD →
      resolve_cached_url sign now uri cache = ((e.url, false), cache)) ∧
    (∀ (sign : String → String) (now : Int) (uri : String) (cache : SignedUrlCache),
      startswith uri "gs://" = true →
      (¬ ∃ e t, dget cache uri = some e ∧ e.expires_at = .valid t ∧
        t - now > REFRESH_THRESHOLD) →
      resolve_cached_url sign now uri cache =
        ((sign uri, true), dset cache uri (generate_signed_url sign now uri))) ∧
    (∀ (sign : String → String) (now : Int) (uri : String) (cache : SignedUrlCache),
      resolve_cached_url sign now uri (resolve_cached_url sign now uri cache).2 =
        (((resolve_cached_url sign now uri cache).1.1, false),
          (resolve_cached_url sign now uri cache).2)) ∧
    (∀ (sign : String → String) (now t2 : Int) (uri : String) (cache : SignedUrlCache),
      (resolve_cached_url sign now uri cache).1.2 = true →
      now + SIGN_DURATION - t2 > REFRESH_THRESHOLD →
      resolve_cached_url sign t2 uri (resolve_cached_url sign now uri cache).2 =
        (((resolve_cached_url sign now uri cache).1.1, false),
          (resolve_cached_url sign now uri cache).2)) := by
  refine ⟨?_, ?_, ?_, ?_, ?_⟩
  · exact resolve_cached_url_pass
  · exact resolve_cached_url_hit
  · exact resolve_cached_url_fresh
  · intro sign now uri cache
    by_cases hg : startswith uri "gs://"
    · by_cases hhit : ∃ e t, dget cache uri = some e ∧ e.expires_at = .valid t ∧
        t - now > REFRESH_THRESHOLD
      · rcases hhit with ⟨e, t, he, hv, ht⟩
        rw [resolve_cached_url_hit sign now uri cache e t hg he hv ht]
        exact resolve_cached_url_hit sign now uri cache e t hg he hv ht
      · rw [resolve_cached_url_fresh sign now uri cache hg hhit]
        exact resolve_cached_url_hit sign now uri
          (dset cache uri (generate_signed_url sign now uri))
          (generate_signed_url sign now uri) (now + SIGN_DURATION) hg
          (dget_dset_self cache uri (generate_signed_url sign now uri)) rfl
          (by simp [SIGN_DURATION, REFRESH_THRESHOLD])
    · rw [resolve_cached_url_pass sign now uri cache (eq_false_of_ne_true hg)]
      exact resolve_cached_url_pass sign now uri cache (eq_false_of_ne_true hg)
  · intro sign now t2 uri cache hch h2
    have hg : startswith uri "gs://" = true := by
      by_contra hng
      rw [resolve_cached_url_pass sign now uri cache (eq_false_of_ne_true hng)] at hch
      simp at hch
    rw [resolve_cached_url_changed_shape sign now uri cache hch]
    exact resolve_cached_url_hit sign t2 uri
      (dset cache uri (generate_signed_url sign now uri))
      (generate_signed_url sign now uri) (now + SIGN_DURATION) hg
      (dget_dset_self cache uri (generate_signed_url sign now uri)) rfl h2

/-- Witness for C6: a concrete cache hit far from expiry is returned unchanged
with `changed = false`. -/
theorem resolve_cached_url_contract_witness :
    resolve_cached_url (fun u => "https://signed/" ++ u) 1000 "gs://b/x"
        [("gs://b/x", { url := "https://old", expires_at := .valid 2000 })] =
      (("https://old", false),
        [("gs://b/x", { url := "https://old", expires_at := .valid 2000 })]) :=
  resolve_cached_url_contract.2.1 (fun u => "https://signed/" ++ u) 1000 "gs://b/x"
    [("gs://b/x", { url := "https://old", expires_at := .valid 2000 })]
    { url := "https://old", expires_at := .valid 2000 } 2000
    (by decide) (by decide) rfl (by norm_num [REFRESH_THRESHOLD])

theorem dget_foldl_dset_ne {α : Type} (us : List (String × α)) (k : String) :
    ∀ d0 : List (String × α), (∀ kv ∈ us, kv.1 ≠ k) →
    dget (us.foldl (fun d kv => dset d kv.1 kv.2) d0) k = dget d0 k := by
  induction us with
  | nil => intro d0 _; rfl
  | cons hd tl ih =>
    intro d0 h
    simp only [List.foldl_cons]
    rw [ih (dset d0 hd.1 hd.2) (fun kv hm => h kv (List.mem_cons_of_mem hd hm))]
    exact dget_dset_ne d0 hd.1 k hd.2 (Ne.symm (h hd (List.mem_cons_self hd tl)))

/-- **C9**: the scene PATCH endpoint persists only the whitelisted fields
`visual_description`, `narration`, `narration_enabled`, `music_description`
and `music_enabled`: any other key of the payload is discarded, leaving the
corresponding stored field unchanged, and a payload with no whitelisted key
causes no write at all. -/
theorem update_scene_endpoint_whitelist (sceneDoc updates : JDict) :
    (∀ k, ALLOWED.contains k = false →
      dget (update_scene_endpoint sceneDoc updates).1 k = dget sceneDoc k) ∧
    ((∀ kv ∈ updates, ALLOWED.contains kv.1 = false) →
      update_scene_endpoint sceneDoc updates = (sceneDoc, false)) := by
  constructor
  · intro k hk
    unfold update_scene_endpoint
    by_cases he : (updates.filter (fun kv => ALLOWED.contains kv.1)).isEmpty = true
    · rw [if_pos he]
    · rw [if_neg he]
      apply dget_foldl_dset_ne
      intro kv hm heq
      have hmem := (List.mem_filter.mp hm).2
      rw [heq, hk] at hmem
      exact Bool.noConfusion hmem
  · intro h
    have hnil : updates.filter (fun kv => ALLOWED.contains kv.1) = [] := by
      rw [List.filter_eq_nil_iff]
      intro kv hm
      rw [h kv hm]
      exact Bool.noConfusion
    unfold update_scene_endpoint
    rw [hnil]
    rfl

/-- Witness for C9: a payload holding only `status` and `video_url` leaves the
stored document untouched and performs no write. -/
theorem update_scene_endpoint_whitelist_witness :
    dget (update_scene_endpoint c9_doc c9_ups).1 "status" = dget c9_doc "status" ∧
    update_scene_endpoint c9_doc c9_ups = (c9_doc, false) :=
  ⟨(update_scene_endpoint_whitelist c9_doc c9_ups).1 "status" (by decide),
   (update_scene_endpoint_whitelist c9_doc c9_ups).2 (by decide)⟩

/-- **C10**: `resolve_cached_url` is total over arbitrary cache contents for a
durable reference: when the entry is absent, lacks the `expires_at` field, or
holds a malformed timestamp, it does not fail — it falls through to a fresh
signed URL and overwrites that cache slot with a well-formed
`(url, expires_at)` pair. -/
theorem resolve_cached_url_total_on_degenerate_cache
    (sign : String → String) (now : Int) (uri : String) (cache : SignedUrlCache)
    (hg : startswith uri "gs://" = true)
    (hbad : dget cache uri = none ∨
      ∃ e, dget cache uri = some e ∧
        (e.expires_at = .missing ∨ e.expires_at = .malformed)) :
    resolve_cached_url sign now uri cache =
      ((sign uri, true),
        dset cache uri { url := sign uri, expires_at := .valid (now + SIGN_DURATION) }) ∧
    dget (resolve_cached_url sign now uri cache).2 uri =
      some { url := sign uri, expires_at := .valid (now + SIGN_DURATION) } := by
  have hst : ¬ ∃ e t, dget cache uri = some e ∧ e.expires_at = .valid t ∧
      t - now > REFRESH_THRESHOLD := by
    rintro ⟨e, t, he, hv, -⟩
    rcases hbad with hnone | ⟨e2, he2, hx⟩
    · rw [hnone] at he; exact Option.noConfusion he
    · rw [he2] at he
      cases he
      rcases hx with h1 | h1 <;> rw [h1] at hv <;> exact ExpiresAtField.noConfusion hv
  have hfresh := resolve_cached_url_fresh sign now uri cache hg hst
  have hentry : generate_signed_url sign now uri =
      { url := sign uri, expires_at := .valid (now + SIGN_DURATION) } := rfl
  constructor
  · rw [hfresh, hentry]
  · rw [hfresh, hentry]
    exact dget_dset_self cache uri _

/-- Witness for C10: a concrete cache whose entry for the reference carries a
malformed timestamp is overwritten with a fresh well-formed entry. -/
theorem resolve_cached_url_total_witness :
    resolve_cached_url (fun _ => "https://fresh") 50 "gs://b/y"
        [("gs://b/y", { url := "https://old", expires_at := .malformed })] =
      (("https://fresh", true),
        [("gs://b/y", { url := "https://fresh", expires_at := .valid (50 + SIGN_DURATION) })]) := by
  have h := (resolve_cached_url_total_on_degenerate_cache (fun _ => "https://fresh") 50
    "gs://b/y" [("gs://b/y", { url := "https://old", expires_at := .malformed })]
    (by decide)
    (Or.inr ⟨{ url := "https://old", expires_at := .malformed }, by decide, Or.inr rfl⟩)).1
  rw [h]
  decide

theorem collect_scene_uris_error_of_find (xs : List Scene) (s : Scene)
    (h : xs.find? (fun sc => ! startswith (sc.video_url.getD "") "gs://") = some s) :
    collect_scene_uris xs = .error ("Scene " ++ s.id ++ " does not have a video yet") := by
  induction xs with
  | nil => simp [List.find?] at h
  | cons x rest ih =>
    by_cases hx : startswith (x.video_url.getD "") "gs://"
    · have hpc : (! startswith (x.video_url.getD "") "gs://") = false := by simp [hx]
      rw [List.find?_cons, hpc] at h
      unfold collect_scene_uris
      rw [if_pos hx, ih h]
      rfl
    · have hpc : (! startswith (x.video_url.getD "") "gs://") = true := by simp [hx]
      rw [List.find?_cons, hpc] at h
      cases h
      unfold collect_scene_uris
      rw [if_neg hx]

/-- **C3**: if some scene of the production lacks a confirmed durable
(`gs://`) video reference, the stitch request fails with a 400 precondition
error naming the first offending scene, no transcoding job is dispatched, and
the production document is left entirely unchanged — in particular its status
does not transition to `stitching`. -/
theorem stitch_production_precondition (bucket : String)
    (transcoder : Except String String) (p : Project) (s : Scene)
    (h : p.scenes.find? (fun sc => ! startswith (sc.video_url.getD "") "gs://") = some s) :
    stitch_production bucket transcoder p =
      { store := p, dispatched := 0,
        response := .httpError 400 ("Scene " ++ s.id ++ " does not have a video yet") } := by
  unfold stitch_production
  rw [collect_scene_uris_error_of_find p.scenes s h]

/-- Witness for C3 at a concrete production: the request is rejected with 400
naming scene `b`, nothing is dispatched, and the document is unchanged. -/
theorem stitch_production_precondition_witness :
    stitch_production "bkt" (.ok "job-1") c3_prod =
      { store := c3_prod, dispatched := 0,
        response := .httpError 400 "Scene b does not have a video yet" } := by
  rw [stitch_production_precondition "bkt" (.ok "job-1") c3_prod
    { id := "b", video_url := some "https://expired-signed-url", status := "completed" }
    (by decide)]
  decide

/-- Counterexample to C7 as stated: the analyze endpoint replaces
`total_usage` with the usage of the current call, dropping the persisted
running total from 10 USD to 1/2 USD. -/
theorem analyze_production_shrinks_total :
    c7_prod.total_usage.cost_usd = 10 ∧
    (analyze_production [] { cost_usd := 1/2 } none c7_prod).total_usage.cost_usd = 1/2 ∧
    (analyze_production [] { cost_usd := 1/2 } none c7_prod).total_usage.cost_usd
      < c7_prod.total_usage.cost_usd := by
  refine ⟨rfl, rfl, ?_⟩
  show (1/2 : Rat) < 10
  norm_num

/-- **C7 (amended)**: `_accumulate_cost` is additive — it persists the old
total plus the delta, so cost accumulation with a non-negative delta never
decreases `total_usage`; the analyze endpoint, however, replaces the running
total with the usage of the current call, which can shrink it (see the
counterexample). -/
theorem accumulate_cost_monotone (p : Project) (delta : Rat) (h : 0 ≤ delta) :
    (accumulate_cost p delta).total_usage.cost_usd = p.total_usage.cost_usd + delta ∧
    p.total_usage.cost_usd ≤ (accumulate_cost p delta).total_usage.cost_usd := by
  refine ⟨rfl, ?_⟩
  show p.total_usage.cost_usd ≤ p.total_usage.cost_usd + delta
  linarith

/-- Witness for the amended C7 at a concrete production and delta. -/
theorem accumulate_cost_monotone_witness :
    (accumulate_cost c7_prod (16/5)).total_usage.cost_usd
      = c7_prod.total_usage.cost_usd + 16/5 ∧
    c7_prod.total_usage.cost_usd ≤ (accumulate_cost c7_prod (16/5)).total_usage.cost_usd :=
  accumulate_cost_monotone c7_prod (16/5) (by norm_num)

/-- **C1**: evaluation at the failing input.  The per-scene video endpoint
finishes with the scene persisted as `generating` while its persisted
`operation_name` is still `None` — the handle is returned only in the HTTP
response — so the entity is left in `generating` with no persisted job
handle, contrary to the claim (render kickoff and stitch do persist theirs). -/
theorem video_endpoint_drops_handle :
    (getScene c1_out.store "s1").map (fun s => s.status) = some "generating" ∧
    (getScene c1_out.store "s1").map (fun s => s.operation_name) = some none ∧
    c1_out.response = .processing "op-1" := by decide

/-- Counterexample to C2 as stated: scene video generation performs no
duplicate-handle check — with `op-old` still processing it starts a second
external job and answers `processing`, not a conflict; and the compress
duplicate rejection uses HTTP 400, not 409 Conflict. -/
theorem dispatch_conflict_counterexample :
    ((c2_prod.scenes.headD { id := "x" }).operation_name = some "op-old") ∧
    ((c2_prod.scenes.headD { id := "x" }).status = "generating") ∧
    c2_out.dispatched = 1 ∧
    c2_out.response = .processing "op-new" ∧
    (compress_upload "bkt" (.ok "tj-2") c2_record "720p").response =
      .httpError 400 "720p variant already processing" ∧
    (400 : Nat) ≠ 409 := by decide

/-- **C2 (amended)**: only the compression dispatch enforces the duplicate
check: a compress request for a resolution whose variant is already
`processing` or `succeeded` is rejected with HTTP 400 naming the variant's
state, no transcoding job is started, and the upload's variant list is left
unchanged (scene video generation and stitch perform no duplicate-handle
check and re-dispatch unconditionally). -/
theorem compress_upload_duplicate_refused (bucket : String)
    (transcoder : Except String String) (record : UploadRecord) (resolution : String)
    (v : CompressedVariant)
    (hft : record.file_type = "video")
    (hres : resolution = "480p" ∨ resolution = "720p")
    (hv : record.compressed_variants.find? (fun w =>
      w.resolution == resolution && (w.status == "processing" || w.status == "succeeded"))
      = some v) :
    compress_upload bucket transcoder record resolution =
      { record := record, dispatched := 0,
        response := .httpError 400 (resolution ++ " variant already " ++ v.status) } := by
  unfold compress_upload
  rw [hft, hv]
  simp only [bne_self_eq_false, Bool.false_eq_true, if_false]
  rw [if_neg (not_not_intro hres)]

/-- Witness for the amended C2 at the concrete record with a processing 720p
variant. -/
theorem compress_upload_duplicate_refused_witness :
    compress_upload "bkt" (.ok "tj-2") c2_record "720p" =
      { record := c2_record, dispatched := 0,
        response := .httpError 400 ("720p" ++ " variant already " ++
          ({ resolution := "720p", gcs_uri := "gs://b/720.mp4", job_name := "tj-1",
             status := "processing" } : CompressedVariant).status) } :=
  compress_upload_duplicate_refused "bkt" (.ok "tj-2") c2_record "720p"
    { resolution := "720p", gcs_uri := "gs://b/720.mp4", job_name := "tj-1",
      status := "processing" }
    rfl (Or.inr rfl) (by decide)

theorem get_stitch_status_store (jobStatus sign : String → String) (p : Project) :
    (get_stitch_status jobStatus sign p).1 =
      if optTruthy p.stitch_job_name = true then
        (if jobStatus (p.stitch_job_name.getD "") = "SUCCEEDED" then
          { p with status := .completed }
         else if jobStatus (p.stitch_job_name.getD "") = "FAILED" ∨
             jobStatus (p.stitch_job_name.getD "") = "UNKNOWN" then
          { p with status := .failed,
                   error_message := some ("Transcoder job " ++ jobStatus (p.stitch_job_name.getD "")) }
         else p)
      else p := by
  unfold get_stitch_status
  by_cases hj : optTruthy p.stitch_job_name = true
  · rw [if_neg (not_not_intro hj), if_pos hj]
    split_ifs <;> rfl
  · rw [if_pos hj, if_neg hj]

theorem get_stitch_status_idem (jobStatus sign : String → String) (p : Project) :
    (get_stitch_status jobStatus sign (get_stitch_status jobStatus sign p).1).1
      = (get_stitch_status jobStatus sign p).1 := by
  rw [get_stitch_status_store jobStatus sign p]
  by_cases hj : optTruthy p.stitch_job_name = true
  · by_cases h1 : jobStatus (p.stitch_job_name.getD "") = "SUCCEEDED"
    · rw [if_pos hj, if_pos h1, get_stitch_status_store]
      simp only []
      rw [if_pos hj, if_pos h1]
    · by_cases h2 : jobStatus (p.stitch_job_name.getD "") = "FAILED" ∨
        jobStatus (p.stitch_job_name.getD "") = "UNKNOWN"
      · rw [if_pos hj, if_neg h1, if_pos h2, get_stitch_status_store]
        simp only []
        rw [if_pos hj, if_neg h1, if_pos h2]
      · rw [if_pos hj, if_neg h1, if_neg h2, get_stitch_status_store]
        rw [if_pos hj, if_neg h1, if_neg h2]
  · rw [if_neg hj, get_stitch_status_store, if_neg hj]

theorem compress_status_step_unchanged (jobStatus : String → String) (size : String → Int)
    (freshId : String → String) (r : UploadRecord) (v : CompressedVariant)
    (h : (compress_status_step jobStatus size freshId r v).2.2 = false) :
    (compress_status_step jobStatus size freshId r v).1 = v := by
  unfold compress_status_step at h ⊢
  by_cases hp : (v.status == "processing" && v.job_name != "") = true
  · rw [if_pos hp] at h ⊢
    by_cases h1 : jobStatus v.job_name = "SUCCEEDED"
    · rw [if_pos h1] at h
      by_cases hc : ¬ optTruthy v.child_upload_id = true
      · rw [if_pos hc] at h; simp at h
      · rw [if_neg hc] at h; simp at h
    · rw [if_neg h1] at h ⊢
      by_cases h2 : jobStatus v.job_name = "FAILED" ∨ jobStatus v.job_name = "UNKNOWN"
      · rw [if_pos h2] at h; simp at h
      · rw [if_neg h2]
  · rw [if_neg hp]

theorem compress_status_step_idem (jobStatus : String → String) (size : String → Int)
    (freshId : String → String) (r1 r2 : UploadRecord) (v : CompressedVariant) :
    compress_status_step jobStatus size freshId r2
        (compress_status_step jobStatus size freshId r1 v).1
      = ((compress_status_step jobStatus size freshId r1 v).1, none, false) := by
  by_cases hp : (v.status == "processing" && v.job_name != "") = true
  · by_cases h1 : jobStatus v.job_name = "SUCCEEDED"
    · by_cases hc : ¬ optTruthy v.child_upload_id = true
      · have hfst : (compress_status_step jobStatus size freshId r1 v).1 =
            { v with status := "succeeded",
                     child_upload_id := some (freshId v.gcs_uri) } := by
          unfold compress_status_step
          rw [if_pos hp, if_pos h1, if_pos hc]
        rw [hfst]
        unfold compress_status_step
        rw [if_neg (by simp)]
      · have hfst : (compress_status_step jobStatus size freshId r1 v).1 =
            { v with status := "succeeded" } := by
          unfold compress_status_step
          rw [if_pos hp, if_pos h1, if_neg hc]
        rw [hfst]
        unfold compress_status_step
        rw [if_neg (by simp)]
    · by_cases h2 : jobStatus v.job_name = "FAILED" ∨ jobStatus v.job_name = "UNKNOWN"
      · have hfst : (compress_status_step jobStatus size freshId r1 v).1 =
            { v with status := "failed" } := by
          unfold compress_status_step
          rw [if_pos hp, if_neg h1, if_pos h2]
        rw [hfst]
        unfold compress_status_step
        rw [if_neg (by simp)]
      · have hfst : compress_status_step jobStatus size freshId r1 v = (v, none, false) := by
          unfold compress_status_step
          rw [if_pos hp, if_neg h1, if_neg h2]
        rw [hfst]
        unfold compress_status_step
        rw [if_pos hp, if_neg h1, if_neg h2]
  · have hfst : compress_status_step jobStatus size freshId r1 v = (v, none, false) := by
      unfold compress_status_step
      rw [if_neg hp]
    rw [hfst]
    unfold compress_status_step
    rw [if_neg hp]

theorem map_congr_mem {α β : Type} (l : List α) (f g : α → β)
    (h : ∀ x ∈ l, f x = g x) : l.map f = l.map g := by
  induction l with
  | nil => rfl
  | cons hd tl ih =>
    simp [h hd (List.mem_cons_self hd tl), ih (fun x hx => h x (List.mem_cons_of_mem hd hx))]

theorem map_eq_self_of_forall {α : Type} (l : List α) (f : α → α)
    (h : ∀ x ∈ l, f x = x) : l.map f = l := by
  induction l with
  | nil => rfl
  | cons hd tl ih =>
    simp [h hd (List.mem_cons_self hd tl), ih (fun x hx => h x (List.mem_cons_of_mem hd hx))]

theorem get_compress_status_fst_variants (jobStatus : String → String) (size : String → Int)
    (freshId : String → String) (st : UploadStore) :
    (get_compress_status jobStatus size freshId st).1.record.compressed_variants
      = (st.record.compressed_variants.map
          (compress_status_step jobStatus size freshId st.record)).map (fun x => x.1) := by
  simp only [get_compress_status]
  by_cases hu : ((st.record.compressed_variants.map
      (compress_status_step jobStatus size freshId st.record)).any (fun x => x.2.2)) = true
  · rw [if_pos hu]
  · rw [if_neg hu]
    rw [List.map_map]
    have hall : ∀ v ∈ st.record.compressed_variants,
        (compress_status_step jobStatus size freshId st.record v).1 = v := by
      intro v hv
      have hmem := List.mem_map_of_mem (compress_status_step jobStatus size freshId st.record) hv
      cases hcase : (compress_status_step jobStatus size freshId st.record v).2.2 with
      | false => exact compress_status_step_unchanged jobStatus size freshId st.record v hcase
      | true => exact absurd (List.any_eq_true.mpr ⟨_, hmem, hcase⟩) hu
    exact (map_eq_self_of_forall _ _ hall).symm

theorem noop_steps_any (vs : List CompressedVariant) :
    ((vs.map (fun v => ((v, none, false) : CompressedVariant × Option UploadRecord × Bool))).any
      (fun x => x.2.2)) = false := by
  induction vs with
  | nil => rfl
  | cons hd tl ih => simp [ih]

theorem noop_steps_filterMap (vs : List CompressedVariant) :
    ((vs.map (fun v => ((v, none, false) : CompressedVariant × Option UploadRecord × Bool))).filterMap
      (fun x => x.2.1)) = [] := by
  induction vs with
  | nil => rfl
  | cons hd tl ih => simp [ih]

theorem get_compress_status_noop (jobStatus : String → String) (size : String → Int)
    (freshId : String → String) (st : UploadStore)
    (h : ∀ v ∈ st.record.compressed_variants,
      compress_status_step jobStatus size freshId st.record v = (v, none, false)) :
    get_compress_status jobStatus size freshId st = (st, false) := by
  have hmap : st.record.compressed_variants.map
      (compress_status_step jobStatus size freshId st.record)
      = st.record.compressed_variants.map
          (fun v => ((v, none, false) : CompressedVariant × Option UploadRecord × Bool)) :=
    map_congr_mem _ _ _ h
  simp only [get_compress_status, hmap, noop_steps_any, noop_steps_filterMap,
    Bool.false_eq_true, if_false, List.append_nil]

theorem get_compress_status_idem (jobStatus : String → String) (size : String → Int)
    (freshId : String → String) (st : UploadStore) :
    (get_compress_status jobStatus size freshId
        (get_compress_status jobStatus size freshId st).1).1
      = (get_compress_status jobStatus size freshId st).1 := by
  have hnoop : ∀ v ∈ (get_compress_status jobStatus size freshId st).1.record.compressed_variants,
      compress_status_step jobStatus size freshId
        (get_compress_status jobStatus size freshId st).1.record v = (v, none, false) := by
    rw [get_compress_status_fst_variants jobStatus size freshId st]
    intro v hv
    rcases List.mem_map.mp hv with ⟨x, hx, rfl⟩
    rcases List.mem_map.mp hx with ⟨w, hw, rfl⟩
    exact compress_status_step_idem jobStatus size freshId st.record
      (get_compress_status jobStatus size freshId st).1.record w
  rw [get_compress_status_noop jobStatus size freshId
    (get_compress_status jobStatus size freshId st).1 hnoop]

/-- **C5**: resolving a terminal job outcome is idempotent: for both the
stitch-status check and the compress-status check, running the status check a
second time against the same collaborator outcome is a no-op — the persisted
entity state after two invocations equals the state after one (in particular,
no second child `UploadRecord` is created and no field changes value again). -/
theorem resolve_status_checks_idempotent :
    (∀ (jobStatus sign : String → String) (p : Project),
      (get_stitch_status jobStatus sign (get_stitch_status jobStatus sign p).1).1
        = (get_stitch_status jobStatus sign p).1) ∧
    (∀ (jobStatus : String → String) (size : String → Int) (freshId : String → String)
        (st : UploadStore),
      (get_compress_status jobStatus size freshId
          (get_compress_status jobStatus size freshId st).1).1
        = (get_compress_status jobStatus size freshId st).1) :=
  ⟨get_stitch_status_idem, get_compress_status_idem⟩

theorem kickoff_scene_updates_id (d : VideoSvcDict) (s : Scene) :
    (kickoff_scene_updates d s).id = s.id := by
  unfold kickoff_scene_updates
  split_ifs <;> rfl

theorem set_scene_status_self (s : Scene) (v : String) (h : s.status = v) :
    { s with status := v } = s := by rw [← h]

theorem updateSceneIn_split (p : Project) (pre : List Scene) (y : Scene) (rest : List Scene)
    (i : String) (f : Scene → Scene) (hp : p.scenes = pre ++ y :: rest) (hy : y.id = i)
    (hpre : ∀ s ∈ pre, s.id ≠ i) (hrest : ∀ s ∈ rest, s.id ≠ i) :
    (updateSceneIn p i f).scenes = pre ++ f y :: rest := by
  show (p.scenes.map (fun s => if s.id == i then f s else s)) = pre ++ f y :: rest
  rw [hp, List.map_append, List.map_cons]
  rw [map_eq_self_of_forall _ _ (fun s hs => by
    rw [if_neg (fun hb => hpre s hs (beq_iff_eq.mp hb))])]
  rw [map_eq_self_of_forall _ _ (fun s hs => by
    rw [if_neg (fun hb => hrest s hs (beq_iff_eq.mp hb))])]
  rw [if_pos (beq_iff_eq.mpr hy)]

theorem kickoff_loop_cons_confirmed (svc : Scene → Except String VideoSvcDict)
    (x : Scene) (rest : List Scene) (p : Project)
    (hx : startswith (x.video_url.getD "") "gs://" = true) :
    kickoff_loop svc (x :: rest) p =
      kickoff_loop svc rest
        (if x.status != "completed" then
          updateSceneIn p x.id (fun s => { s with status := "completed" })
        else p) := by
  simp only [kickoff_loop]
  rw [if_pos hx]

theorem kickoff_loop_cons_dispatch (svc : Scene → Except String VideoSvcDict)
    (x : Scene) (rest : List Scene) (p : Project) (d : VideoSvcDict)
    (hx : ¬ startswith (x.video_url.getD "") "gs://" = true)
    (hd : svc x = .ok d) :
    kickoff_loop svc (x :: rest) p =
      ({ store := (kickoff_loop svc rest
            (updateSceneIn (updateSceneIn p x.id (fun s => { s with status := "generating" }))
              x.id (kickoff_scene_updates d))).1.store,
         dispatched := x.id :: (kickoff_loop svc rest
            (updateSceneIn (updateSceneIn p x.id (fun s => { s with status := "generating" }))
              x.id (kickoff_scene_updates d))).1.dispatched },
        (kickoff_loop svc rest
          (updateSceneIn (updateSceneIn p x.id (fun s => { s with status := "generating" }))
            x.id (kickoff_scene_updates d))).2) := by
  simp only [kickoff_loop]
  rw [if_neg hx, hd]

theorem kickoff_loop_cons_error (svc : Scene → Except String VideoSvcDict)
    (x : Scene) (rest : List Scene) (p : Project) (e : String)
    (hx : ¬ startswith (x.video_url.getD "") "gs://" = true)
    (hd : svc x = .error e) :
    kickoff_loop svc (x :: rest) p =
      ({ store := updateSceneIn p x.id (fun s => { s with status := "generating" }),
         dispatched := [] }, some e) := by
  simp only [kickoff_loop]
  rw [if_neg hx, hd]

theorem kickoff_loop_ok_closed (svcOk : Scene → VideoSvcDict) (xs : List Scene) :
    ∀ (p : Project) (pre : List Scene),
      p.scenes = pre ++ xs →
      ((pre ++ xs).map (fun s => s.id)).Nodup →
      kickoff_loop (fun s => .ok (svcOk s)) xs p =
        ({ store := { p with scenes := pre ++ xs.map (kickoffTransform svcOk) },
           dispatched := (xs.filter
             (fun s => ! startswith (s.video_url.getD "") "gs://")).map (fun s => s.id) },
          none) := by
  induction xs with
  | nil =>
    intro p pre hp hnd
    rw [List.append_nil] at hp
    subst hp
    simp only [kickoff_loop, List.map_nil, List.filter_nil, List.append_nil]
  | cons x rest ih =>
    intro p pre hp hnd
    have hnd2 := hnd
    rw [List.map_append, List.map_cons] at hnd2
    have hsplit := List.nodup_append.mp hnd2
    have hx_pre : ∀ s ∈ pre, s.id ≠ x.id := by
      intro s hs he
      exact hsplit.2.2 (List.mem_map_of_mem _ hs) (he ▸ List.mem_cons_self _ _)
    have hx_rest : ∀ s ∈ rest, s.id ≠ x.id := by
      intro s hs he
      exact (List.nodup_cons.mp hsplit.2.1).1 (he ▸ List.mem_map_of_mem _ hs)
    by_cases hx : startswith (x.video_url.getD "") "gs://" = true
    · rw [kickoff_loop_cons_confirmed _ x rest p hx]
      by_cases hst : x.status = "completed"
      · rw [if_neg (by simp [hst])]
        have hp' : p.scenes = (pre ++ [x]) ++ rest := by rw [hp]; simp
        have hnd' : (((pre ++ [x]) ++ rest).map (fun s => s.id)).Nodup := by
          have hl : (pre ++ [x]) ++ rest = pre ++ x :: rest := by simp
          rw [hl]; exact hnd
        rw [ih p (pre ++ [x]) hp' hnd']
        rw [List.map_cons, List.filter_cons]
        rw [show kickoffTransform svcOk x = x from by
          unfold kickoffTransform; rw [if_pos hx]; exact set_scene_status_self x _ hst]
        rw [if_neg (by simp [hx])]
        simp [List.append_assoc]
      · rw [if_pos (by simp [hst])]
        have hscenes := updateSceneIn_split p pre x rest x.id
          (fun s => { s with status := "completed" }) hp rfl hx_pre hx_rest
        have hp' : (updateSceneIn p x.id (fun s => { s with status := "completed" })).scenes
            = (pre ++ [({ x with status := "completed" } : Scene)]) ++ rest := by
          rw [hscenes]; simp
        have hnd' : (((pre ++ [({ x with status := "completed" } : Scene)]) ++ rest).map
            (fun s => s.id)).Nodup := by
          have hl : ((pre ++ [({ x with status := "completed" } : Scene)]) ++ rest).map
              (fun s => s.id) = (pre ++ x :: rest).map (fun s => s.id) := by simp
          rw [hl]; exact hnd
        rw [ih _ (pre ++ [({ x with status := "completed" } : Scene)]) hp' hnd']
        rw [List.map_cons, List.filter_cons]
        rw [show kickoffTransform svcOk x = { x with status := "completed" } from by
          unfold kickoffTransform; rw [if_pos hx]]
        rw [if_neg (by simp [hx])]
        simp [List.append_assoc, updateSceneIn]
    · rw [kickoff_loop_cons_dispatch _ x rest p (svcOk x) hx rfl]
      have hsc1 := updateSceneIn_split p pre x rest x.id
        (fun s => { s with status := "generating" }) hp rfl hx_pre hx_rest
      have hsc2 := updateSceneIn_split
        (updateSceneIn p x.id (fun s => { s with status := "generating" }))
        pre { x with status := "generating" } rest x.id
        (kickoff_scene_updates (svcOk x)) hsc1 rfl hx_pre hx_rest
      have hp' : (updateSceneIn
            (updateSceneIn p x.id (fun s => { s with status := "generating" }))
            x.id (kickoff_scene_updates (svcOk x))).scenes
          = (pre ++ [kickoff_scene_updates (svcOk x) { x with status := "generating" }]) ++ rest := by
        rw [hsc2]; simp
      have hnd' : (((pre ++ [kickoff_scene_updates (svcOk x) { x with status := "generating" }])
          ++ rest).map (fun s => s.id)).Nodup := by
        have hl : ((pre ++ [kickoff_scene_updates (svcOk x) { x with status := "generating" }])
            ++ rest).map (fun s => s.id) = (pre ++ x :: rest).map (fun s => s.id) := by
          simp [kickoff_scene_updates_id]
        rw [hl]; exact hnd
      rw [ih _ _ hp' hnd']
      rw [List.map_cons, List.filter_cons]
      rw [show kickoffTransform svcOk x
          = kickoff_scene_updates (svcOk x) { x with status := "generating" } from by
        unfold kickoffTransform; rw [if_neg hx]]
      rw [if_pos (by simp [hx])]
      simp [List.append_assoc, updateSceneIn]

/-- **C8 (amended)**: with distinct scene ids and every dispatch succeeding,
render kickoff maps each scene through `kickoffTransform`: a scene already
holding a confirmed `gs://` video reference is not re-dispatched — its id is
not among the dispatched scenes — and its only change is that a non-completed
status is normalized to `completed` (its other persisted fields are
unchanged); only scenes without a confirmed reference are set to `generating`
and dispatched. -/
theorem render_kickoff_skips_confirmed (svcOk : Scene → VideoSvcDict) (p : Project)
    (hnd : (p.scenes.map (fun s => s.id)).Nodup) :
    process_render_kickoff (fun s => .ok (svcOk s)) p =
      { store := { p with scenes := p.scenes.map (kickoffTransform svcOk) },
        dispatched := (p.scenes.filter
          (fun s => ! startswith (s.video_url.getD "") "gs://")).map (fun s => s.id) } ∧
    ∀ s ∈ p.scenes, startswith (s.video_url.getD "") "gs://" = true →
      kickoffTransform svcOk s = { s with status := "completed" } ∧
      s.id ∉ (process_render_kickoff (fun s => .ok (svcOk s)) p).dispatched := by
  have hclosed : process_render_kickoff (fun s => .ok (svcOk s)) p =
      { store := { p with scenes := p.scenes.map (kickoffTransform svcOk) },
        dispatched := (p.scenes.filter
          (fun s => ! startswith (s.video_url.getD "") "gs://")).map (fun s => s.id) } := by
    unfold process_render_kickoff
    rw [kickoff_loop_ok_closed svcOk p.scenes p [] (List.nil_append _).symm
      (by simpa using hnd)]
    simp
  refine ⟨hclosed, ?_⟩
  intro s hs hconf
  constructor
  · unfold kickoffTransform
    rw [if_pos hconf]
  · rw [hclosed]
    intro hmem
    rcases List.mem_map.mp hmem with ⟨t, ht, hid⟩
    have htm := List.mem_filter.mp ht
    have hts : t = s :=
      List.inj_on_of_nodup_map hnd htm.1 hs hid
    rw [hts] at htm
    rw [hconf] at htm
    simp at htm

/-- Counterexample to C8 as stated: the scene with a confirmed `gs://` video is
indeed not re-dispatched, but it is not left untouched — kickoff rewrites its
persisted status from `failed` to `completed`. -/
theorem kickoff_counterexample :
    ((c8_prod.scenes.headD { id := "x" }).status = "failed") ∧
    ((c8_prod.scenes.headD { id := "x" }).video_url = some "gs://b/v1.mp4") ∧
    (getScene c8_out.store "s1").map (fun s => s.status) = some "completed" ∧
    c8_out.dispatched = [] := by decide

/-- Witness for the amended C8 at the concrete production `c8_prod`. -/
theorem render_kickoff_skips_confirmed_witness :
    process_render_kickoff (fun s => .ok { operation_name := some ("op-" ++ s.id) }) c8_prod =
      { store :=
          { c8_prod with
            scenes :=
              c8_prod.scenes.map
                (kickoffTransform (fun s => { operation_name := some ("op-" ++ s.id) })) },
        dispatched := (c8_prod.scenes.filter
          (fun s => ! startswith (s.video_url.getD "") "gs://")).map (fun s => s.id) } :=
  (render_kickoff_skips_confirmed (fun s => { operation_name := some ("op-" ++ s.id) })
    c8_prod (by decide)).1

theorem confirmed_truthy (o : Option String)
    (h : startswith (o.getD "") "gs://" = true) : optTruthy o = true := by
  cases o with
  | none => exact absurd h (by decide)
  | some s =>
    show (s != "") = true
    rw [bne_iff_ne]
    intro he
    rw [show Option.getD (some s) "" = s from rfl, he] at h
    exact absurd h (by decide)

theorem updateSceneIn_ids (p : Project) (i : String) (f : Scene → Scene)
    (hid : ∀ s, (f s).id = s.id) :
    (updateSceneIn p i f).scenes.map (fun s => s.id) = p.scenes.map (fun s => s.id) := by
  show (p.scenes.map _).map _ = _
  rw [List.map_map]
  apply map_congr_mem
  intro s _
  by_cases h : (s.id == i) = true <;> simp [Function.comp, h, hid]

theorem sceneInvP_updateSceneIn (p : Project) (i : String) (f : Scene → Scene)
    (hinv : SceneInvP p)
    (hf : ∀ s ∈ p.scenes, s.id = i →
      ((f s).status = "completed" → optTruthy (f s).video_url = true)) :
    SceneInvP (updateSceneIn p i f) := by
  intro s hs hst
  have hs2 : s ∈ p.scenes.map (fun t => if t.id == i then f t else t) := hs
  rcases List.mem_map.mp hs2 with ⟨t, ht, rfl⟩
  by_cases h : (t.id == i) = true
  · rw [if_pos h] at hst ⊢
    exact hf t ht (beq_iff_eq.mp h) hst
  · rw [if_neg h] at hst ⊢
    exact hinv t ht hst

theorem inv_updateSceneIn (p : Project) (i : String) (f : Scene → Scene) (hp : Inv p)
    (hid : ∀ s, (f s).id = s.id)
    (hf : ∀ s ∈ p.scenes, s.id = i →
      ((f s).status = "completed" → optTruthy (f s).video_url = true)) :
    Inv (updateSceneIn p i f) :=
  ⟨hp.1, hp.2.1, sceneInvP_updateSceneIn p i f hp.2.2.1 hf,
    by rw [updateSceneIn_ids p i f hid]; exact hp.2.2.2⟩

theorem inv_set_failed (p : Project) (msg : Option String) (hp : Inv p) :
    Inv { p with status := ProjectStatus.failed, error_message := msg } :=
  ⟨(fun hc => nomatch hc), hp.2.1, hp.2.2.1, hp.2.2.2⟩

theorem inv_set_status (p : Project) (st : ProjectStatus) (hst : st ≠ .completed)
    (hp : Inv p) : Inv { p with status := st } :=
  ⟨(fun hc => absurd hc hst), hp.2.1, hp.2.2.1, hp.2.2.2⟩

theorem inv_accumulate (p : Project) (c : Rat) (hp : Inv p) :
    Inv (accumulate_cost p c) :=
  ⟨hp.1, hp.2.1, hp.2.2.1, hp.2.2.2⟩

theorem kickoff_scene_updates_keeps (d : VideoSvcDict) (s : Scene) :
    (kickoff_scene_updates d s).status = s.status ∧
    (kickoff_scene_updates d s).video_url = s.video_url := by
  unfold kickoff_scene_updates
  split_ifs <;> exact ⟨rfl, rfl⟩

theorem frame_scene_update_keeps (u : String) (gp : Option String) (s : Scene) :
    (frame_scene_update u gp s).status = s.status ∧
    (frame_scene_update u gp s).video_url = s.video_url ∧
    (frame_scene_update u gp s).id = s.id := by
  unfold frame_scene_update
  split_ifs <;> exact ⟨rfl, rfl, rfl⟩

theorem corr_updateSceneIn (p : Project) (i : String) (f : Scene → Scene) (xs : List Scene)
    (hid : ∀ s, (f s).id = s.id) (hvid : ∀ s, (f s).video_url = s.video_url)
    (hcorr : ∀ x ∈ xs, ∀ u ∈ p.scenes, u.id = x.id → u.video_url = x.video_url) :
    ∀ x ∈ xs, ∀ u ∈ (updateSceneIn p i f).scenes, u.id = x.id → u.video_url = x.video_url := by
  intro x hx u hu hui
  have hu2 : u ∈ p.scenes.map (fun t => if t.id == i then f t else t) := hu
  rcases List.mem_map.mp hu2 with ⟨t, ht, rfl⟩
  by_cases h : (t.id == i) = true
  · rw [if_pos h] at hui ⊢
    rw [hid t] at hui
    rw [hvid t]
    exact hcorr x hx t ht hui
  · rw [if_neg h] at hui ⊢
    exact hcorr x hx t ht hui

theorem kickoff_loop_preserves_inv (svc : Scene → Except String VideoSvcDict)
    (xs : List Scene) :
    ∀ p : Project, Inv p →
      (∀ x ∈ xs, ∀ u ∈ p.scenes, u.id = x.id → u.video_url = x.video_url) →
      Inv (kickoff_loop svc xs p).1.store := by
  induction xs with
  | nil => intro p hp _; exact hp
  | cons x rest ih =>
    intro p hp hcorr
    have hcorr_tail : ∀ y ∈ rest, ∀ u ∈ p.scenes, u.id = y.id → u.video_url = y.video_url :=
      fun y hy => hcorr y (List.mem_cons_of_mem x hy)
    by_cases hx : startswith (x.video_url.getD "") "gs://" = true
    · rw [kickoff_loop_cons_confirmed svc x rest p hx]
      by_cases hst : x.status = "completed"
      · rw [if_neg (by simp [hst])]
        exact ih p hp hcorr_tail
      · rw [if_pos (by simp [hst])]
        apply ih
        · apply inv_updateSceneIn p x.id
            (fun s => { s with status := "completed" }) hp (fun s => rfl)
          intro s hs hsid _
          show optTruthy s.video_url = true
          rw [hcorr x (List.mem_cons_self x rest) s hs hsid]
          exact confirmed_truthy _ hx
        · exact corr_updateSceneIn p x.id
            (fun s => { s with status := "completed" }) rest
            (fun s => rfl) (fun s => rfl) hcorr_tail
    · rcases hsvc : svc x with e | d
      · rw [kickoff_loop_cons_error svc x rest p e hx hsvc]
        show Inv (updateSceneIn p x.id (fun s => { s with status := "generating" }))
        apply inv_updateSceneIn p x.id
          (fun s => { s with status := "generating" }) hp (fun s => rfl)
        intro s hs _ hstc
        simp at hstc
      · rw [kickoff_loop_cons_dispatch svc x rest p d hx hsvc]
        have hp1 : Inv (updateSceneIn p x.id (fun s => { s with status := "generating" })) := by
          apply inv_updateSceneIn p x.id
            (fun s => { s with status := "generating" }) hp (fun s => rfl)
          intro s hs hsid hstc
          simp at hstc
        have hp2 : Inv (updateSceneIn
            (updateSceneIn p x.id (fun s => { s with status := "generating" }))
            x.id (kickoff_scene_updates d)) := by
          apply inv_updateSceneIn _ x.id (kickoff_scene_updates d) hp1
            (kickoff_scene_updates_id d)
          intro s hs hsid hstc
          rw [(kickoff_scene_updates_keeps d s).1] at hstc
          rw [(kickoff_scene_updates_keeps d s).2]
          exact hp1.2.2.1 s hs hstc
        apply ih _ hp2
        apply corr_updateSceneIn _ x.id (kickoff_scene_updates d) rest
          (kickoff_scene_updates_id d) (fun s => (kickoff_scene_updates_keeps d s).2)
        exact corr_updateSceneIn p x.id
          (fun s => { s with status := "generating" }) rest
          (fun s => rfl) (fun s => rfl) hcorr_tail

theorem process_render_kickoff_preserves_inv (svc : Scene → Except String VideoSvcDict)
    (p : Project) (hp : Inv p) : Inv (process_render_kickoff svc p).store := by
  have hcorr : ∀ x ∈ p.scenes, ∀ u ∈ p.scenes, u.id = x.id → u.video_url = x.video_url := by
    intro x hx u hu he
    rw [List.inj_on_of_nodup_map hp.2.2.2 hu hx he]
  have hloop := kickoff_loop_preserves_inv svc p.scenes p hp hcorr
  unfold process_render_kickoff
  rcases hres : kickoff_loop svc p.scenes p with ⟨out, err⟩
  rw [hres] at hloop
  cases err with
  | none => exact hloop
  | some e => exact inv_set_failed out.store (some e) hloop

theorem video_pre_preserves_inv (pd : Option PromptData) (scene : Scene) (p : Project)
    (sid : String) (hp : Inv p) : Inv (video_pre pd scene p sid) := by
  have hbase : Inv (match pd with
      | some pdv =>
        match pdv.visual_description with
        | some d =>
          if d != "" && d != scene.visual_description then
            updateSceneIn p sid (fun s => { s with visual_description := d })
          else p
        | none => p
      | none => p) := by
    rcases pd with _ | pdv
    · exact hp
    · rcases pdv with ⟨vd⟩
      rcases vd with _ | d
      · exact hp
      · show Inv (if d != "" && d != scene.visual_description then
            updateSceneIn p sid (fun s => { s with visual_description := d })
          else p)
        by_cases hc : (d != "" && d != scene.visual_description) = true
        · rw [if_pos hc]
          apply inv_updateSceneIn p sid (fun s => { s with visual_description := d }) hp
            (fun s => rfl)
          intro s hs _ hstc
          exact hp.2.2.1 s hs hstc
        · rw [if_neg hc]
          exact hp
  unfold video_pre
  apply inv_updateSceneIn _ sid (fun s => { s with status := "generating" }) hbase
    (fun s => rfl)
  intro s hs _ hstc
  simp at hstc

theorem video_completed_update_fields (result : VideoSvcDict) (s : Scene) :
    (video_completed_update result s).status = "completed" ∧
    (video_completed_update result s).video_url = some (result.video_uri.getD "") ∧
    (video_completed_update result s).id = s.id := by
  unfold video_completed_update
  split_ifs <;> exact ⟨rfl, rfl, rfl⟩

theorem video_post_preserves_inv (sign : String → String) (result : VideoSvcDict)
    (raw : Option Int) (p2 : Project) (sid : String) (hp : Inv p2) :
    Inv (video_post sign result raw p2 sid).store := by
  rcases hop : result.operation_name with _ | opName
  · simp only [video_post, hop]
    by_cases hvt : optTruthy result.video_uri = true
    · rw [if_pos hvt]
      apply inv_updateSceneIn _ sid (video_completed_update result)
        (inv_accumulate p2 _ hp) (fun s => (video_completed_update_fields result s).2.2)
      intro s hs _ _
      rw [(video_completed_update_fields result s).2.1]
      exact hvt
    · rw [if_neg hvt]
      apply inv_set_failed
      apply inv_updateSceneIn _ sid
        (fun s => { s with status := "failed",
                           error_message := some ("Video generation failed for scene " ++ sid) })
        (inv_accumulate p2 _ hp) (fun s => rfl)
      intro s hs _ hstc
      simp at hstc
  · simp only [video_post, hop]
    by_cases hgp : optTruthy result.generated_prompt = true
    · rw [if_pos hgp]
      apply inv_updateSceneIn _ sid
        (fun s => { s with generated_prompt := result.generated_prompt,
                           video_prompt := result.generated_prompt })
        (inv_accumulate p2 _ hp) (fun s => rfl)
      intro s hs _ hstc
      exact (inv_accumulate p2 _ hp).2.2.1 s hs hstc
    · rw [if_neg hgp]
      exact inv_accumulate p2 _ hp

theorem analyze_finish_preserves_inv (p : Project) (ds : List AiSceneData)
    (usage : UsageMetrics) (ap : Option String)
    (hids : (ds.map (fun d => d.id)).Nodup) (hp : Inv p) :
    Inv (analyze_production ds usage ap p) := by
  refine ⟨(fun hc => nomatch hc), hp.2.1, ?_, ?_⟩
  · intro s hs hstc
    have hs2 : s ∈ ds.map mkAnalyzedScene := hs
    rcases List.mem_map.mp hs2 with ⟨d, hd, rfl⟩
    exact absurd (show ("pending" : String) = "completed" from hstc) (by decide)
  · show ((ds.map mkAnalyzedScene).map (fun s => s.id)).Nodup
    rw [List.map_map]
    exact hids

theorem append_ne_empty_right (a b : String) (h : b.data ≠ []) : a ++ b ≠ "" := by
  cases a with | mk da =>
  cases b with | mk db =>
  intro he
  have hd : da ++ db = [] := congrArg String.data he
  exact h (List.append_eq_nil.mp hd).2

theorem stitch_preserves_inv (bucket : String) (transcoder : Except String String)
    (p : Project) (hp : Inv p) : Inv (stitch_production bucket transcoder p).store := by
  unfold stitch_production
  rcases hc : collect_scene_uris p.scenes with e | us
  · simp only [hc]
    exact hp
  · simp only [hc]
    rcases transcoder with e | job
    · exact inv_set_failed p (some e) hp
    · refine ⟨(fun hc2 => nomatch hc2), fun _ => ?_, hp.2.2.1, hp.2.2.2⟩
      show (("gs://" ++ bucket ++ "/productions/" ++ p.id ++ "/stitched/final.mp4") != "") = true
      rw [bne_iff_ne]
      exact append_ne_empty_right _ _ (by decide)

theorem stitch_status_preserves_inv (jobStatus sign : String → String) (p : Project)
    (hp : Inv p) : Inv (get_stitch_status jobStatus sign p).1 := by
  rw [get_stitch_status_store]
  by_cases hj : optTruthy p.stitch_job_name = true
  · rw [if_pos hj]
    by_cases h1 : jobStatus (p.stitch_job_name.getD "") = "SUCCEEDED"
    · rw [if_pos h1]
      exact ⟨(fun _ => hp.2.1 hj), (fun _ => hp.2.1 hj), hp.2.2.1, hp.2.2.2⟩
    · rw [if_neg h1]
      by_cases h2 : jobStatus (p.stitch_job_name.getD "") = "FAILED" ∨
        jobStatus (p.stitch_job_name.getD "") = "UNKNOWN"
      · rw [if_pos h2]
        exact inv_set_failed p _ hp
      · rw [if_neg h2]
        exact hp
  · rw [if_neg hj]
    exact hp

theorem op_failure_preserves_inv (sid : Option String) (msg : String) (p : Project)
    (hp : Inv p) : Inv (op_failure_update sid msg p) := by
  unfold op_failure_update
  by_cases hs : optTruthy sid = true
  · rw [if_pos hs]
    apply inv_set_failed
    apply inv_updateSceneIn p (sid.getD "")
      (fun s => { s with status := "failed", error_message := some msg }) hp (fun s => rfl)
    intro s hs2 _ hstc
    simp at hstc
  · rw [if_neg hs]
    exact inv_set_failed p _ hp

theorem op_status_preserves_inv (st : OpStatusResult) (sid : Option String) (p : Project)
    (hp : Inv p) : Inv (check_operation_status st sid p) := by
  cases st with
  | completed uri =>
    simp only [check_operation_status]
    by_cases hvt : optTruthy uri = true
    · rw [if_pos hvt]
      cases sid with
      | none => exact hp
      | some s0 =>
        show Inv (updateSceneIn p s0
          (fun s => { s with status := "completed", video_url := some (uri.getD "") }))
        apply inv_updateSceneIn p s0
          (fun s => { s with status := "completed", video_url := some (uri.getD "") })
          hp (fun s => rfl)
        intro s hs _ _
        exact hvt
    · rw [if_neg hvt]
      exact hp
  | processing => exact hp
  | failedS e => exact op_failure_preserves_inv _ _ _ hp
  | errorS m => exact op_failure_preserves_inv _ _ _ hp

theorem step_preserves_inv {p q : Project} (h : Step p q) (hp : Inv p) : Inv q := by
  cases h with
  | analyze_start => exact ⟨(fun hc => nomatch hc), hp.2.1, hp.2.2.1, hp.2.2.2⟩
  | analyze_finish ds usage ap hids =>
    exact analyze_finish_preserves_inv p ds usage ap hids hp
  | patch sid e =>
    apply inv_updateSceneIn p sid (apply_scene_edit e) hp (fun s => rfl)
    intro s hs _ hstc
    exact hp.2.2.1 s hs hstc
  | frame_ok sid uri gp cost =>
    apply inv_accumulate
    apply inv_updateSceneIn p sid (frame_scene_update uri gp) hp
      (fun s => (frame_scene_update_keeps uri gp s).2.2)
    intro s hs _ hstc
    rw [(frame_scene_update_keeps uri gp s).1] at hstc
    rw [(frame_scene_update_keeps uri gp s).2.1]
    exact hp.2.2.1 s hs hstc
  | frame_err sid msg =>
    exact inv_set_failed _ _ (by
      apply inv_updateSceneIn p sid
        (fun s => { s with status := "failed", error_message := some msg }) hp (fun s => rfl)
      intro s hs _ hstc
      simp at hstc)
  | video sid sign svc raw pd =>
    unfold generate_scene_video_endpoint
    rcases hg : getScene p sid with _ | scene
    · simp only [hg]
      exact hp
    · simp only [hg]
      rcases svc with e | result
      · exact video_pre_preserves_inv pd scene p sid hp
      · exact video_post_preserves_inv sign result raw _ sid
          (video_pre_preserves_inv pd scene p sid hp)
  | render => exact inv_set_status p .generating (by decide) hp
  | kickoff svc => exact process_render_kickoff_preserves_inv svc p hp
  | stitch bucket transcoder => exact stitch_preserves_inv bucket transcoder p hp
  | stitch_status jobStatus sign => exact stitch_status_preserves_inv jobStatus sign p hp
  | op_status st sid => exact op_status_preserves_inv st sid p hp
  | archive => exact ⟨hp.1, hp.2.1, hp.2.2.1, hp.2.2.2⟩
  | unarchive => exact ⟨hp.1, hp.2.1, hp.2.2.1, hp.2.2.2⟩
  | sign_urls cache => exact ⟨hp.1, hp.2.1, hp.2.2.1, hp.2.2.2⟩

theorem reach_preserves_inv {p q : Project} (hr : Reach p q) (hp : Inv p) : Inv q := by
  induction hr with
  | refl => exact hp
  | tail _ hstep ih => exact step_preserves_inv hstep ih

/-- **C4 (amended)**: in every state reachable through the exposed
orchestration operations from a state satisfying the invariant (which holds
for every production created with the model defaults: status `draft`, no
URLs, distinct scene ids), `status = completed` implies the required output
reference is non-empty — a completed Production has a truthy
`final_video_url`, and a completed Scene has a truthy `video_url`.
`create_production`, however, persists the client document verbatim and can
install a violating state directly (see the counterexample). -/
theorem reachable_completed_has_outputs (p q : Project)
    (hinv : Inv p) (hr : Reach p q) :
    (q.status = .completed → optTruthy q.final_video_url = true) ∧
    (∀ s ∈ q.scenes, s.status = "completed" → optTruthy s.video_url = true) :=
  ⟨(reach_preserves_inv hr hinv).1, (reach_preserves_inv hr hinv).2.2.1⟩

/-- Counterexample to C4 as stated: `create_production` (an exposed
operation) persists the client-supplied document verbatim, so a production
whose status is `completed` with an empty `final_video_url` is reachable. -/
theorem create_production_counterexample :
    (create_production c4_bad).status = .completed ∧
    (create_production c4_bad).final_video_url = none ∧
    optTruthy (create_production c4_bad).final_video_url = false := by decide

/-- Witness for the amended C4 at the default-created production. -/
theorem reachable_completed_has_outputs_witness :
    (c4_init.status = .completed → optTruthy c4_init.final_video_url = true) ∧
    (∀ s ∈ c4_init.scenes, s.status = "completed" → optTruthy s.video_url = true) :=
  reachable_completed_has_outputs c4_init c4_init
    ⟨(fun hc => nomatch hc), (fun hc => nomatch hc), (fun _ hs => nomatch hs),
      List.Pairwise.nil⟩
    Relation.ReflTransGen.refl

end Veo

